import Mathlib

/-! Shallow embedding of the `shepherd` process supervisor.

Definitions are translated from the Rust sources:
`src/config.rs`, `src/daemon/server.rs`, `src/daemon/mod.rs`,
`src/daemon/remote.rs`, `src/main.rs`.  OS-level effects (child
processes, sockets, the filesystem) are modelled by explicit
environments recording the outcome of each primitive call, and by
traces of the effectful calls a handler makes. -/

namespace Shepherd

/-- An I/O error, identified only by an abstract code (the Rust
`IoError` payloads are never inspected by the logic modelled here). -/
structure IoError where
  code : Nat
deriving DecidableEq

/-- Rendering of an `IoError` into response text; the exact Rust
`Display`/`Debug` output is abstracted to an opaque-but-deterministic
string of the code. -/
def ioErrText (e : IoError) : String :=
  "io error " ++ toString e.code

/-- The `ServerConfig` structure from `src/config.rs`. -/
structure ServerConfig where
  dir : String
  command : String
  args : List String
  auto_restart : Option Bool
  on_stop : List String
  stop_timeout : Option Nat
deriving DecidableEq

/-- The `Config` structure from `src/config.rs`; the `HashMap` of server
configurations is modelled as an association list. -/
structure Config where
  socket_path : String
  start_servers : List String
  servers : List (String × ServerConfig)
deriving DecidableEq

/-- The `HashMap::get` operation, on the association-list model. -/
def mapGet {α : Type} (m : List (String × α)) (k : String) : Option α :=
  (m.find? (fun p => p.1 == k)).map (fun p => p.2)

/-- The `HashMap::remove` operation, on the association-list model. -/
def mapRemoveKey {α : Type} (m : List (String × α)) (k : String) : List (String × α) :=
  m.filter (fun p => p.1 != k)

/-- The `HashMap::insert` (also `VacantEntry::insert`) operation, on the
association-list model: replaces the value if the key is present,
appends otherwise. -/
def mapInsert {α : Type} (m : List (String × α)) (k : String) (v : α) : List (String × α) :=
  if (m.find? (fun p => p.1 == k)).isSome then
    m.map (fun p => if p.1 == k then (k, v) else p)
  else
    m ++ [(k, v)]

/-- The `Server` structure from `src/daemon/server.rs`.  The live child
process is modelled by the liveness bit its `is_alive` probe reports
this tick and by the lines its log-reader thread has queued on the
channel (`pending`: exactly the lines a `tail` call's drain loop will
receive before its time budget runs out). -/
structure Server where
  config : ServerConfig
  alive : Bool
  pending : List String
  log : List String
deriving DecidableEq

/-- The `Server::is_alive` probe (signal-zero semantics), as the modelled
liveness bit. -/
def Server.is_alive (s : Server) : Bool := s.alive

/-- The `Server::auto_restart` accessor:
`self.config.auto_restart.unwrap_or(false)`. -/
def Server.auto_restart (s : Server) : Bool :=
  s.config.auto_restart.getD false

/-- The `STOP_TIMEOUT` constant from `src/daemon/server.rs`. -/
def STOP_TIMEOUT : Option Nat := some 10000

/-- The timeout installed on the child process at the top of
`Server::stop`: `self.config.stop_timeout.or(STOP_TIMEOUT)`.  It bounds
every `wait` of the escalation ladder. -/
def Server.stopTimeoutMs (s : Server) : Option Nat :=
  s.config.stop_timeout.or STOP_TIMEOUT

/-- The `ExitStatus` enumeration from `src/daemon/server.rs`. -/
inductive ExitStatus
  | Stopped
  | Terminated
  | Killed
  | AlreadyStopped
deriving DecidableEq

/-- The `fmt::String` rendering of an `ExitStatus`. -/
def ExitStatus.describe : ExitStatus → String
  | .Stopped => "Stopped gently (used configured stop command)"
  | .Terminated => "Terminated normally (no stop command or timed out)"
  | .Killed => "Killed forcibly (server stopped responding)"
  | .AlreadyStopped => "Server was already stopped!"

/-- Outcomes of the process primitives a single `Server::stop` call can
invoke: `none` means the call succeeded, `some e` that it failed with
error `e`.  `sendResults i` is the outcome of the `i`-th `send_command`
of the `on_stop` loop; the `wait` fields are the outcomes of the
successive `Process::wait` calls (a timeout counts as a failure). -/
structure StopEnv where
  sendResults : Nat → Option IoError
  waitStop : Option IoError
  sigTerm : Option IoError
  waitTerm : Option IoError
  sigKill : Option IoError
  waitKill : Option IoError

/-- A process-directed action performed during `Server::stop`. -/
inductive StopAction
  | sendCmd (s : String)
  | waited
  | sigTerm
  | sigKill
deriving DecidableEq

/-- The `for command in on_stop` loop of `Server::stop`: each command is
sent in order, stopping at the first failing send (the `try!`). -/
def sendAll : List String → (Nat → Option IoError) → Nat → Option IoError × List StopAction
  | [], _, _ => (none, [])
  | c :: rest, f, i =>
    match f i with
    | some e => (some e, [.sendCmd c])
    | none =>
      let r := sendAll rest f (i + 1)
      (r.1, .sendCmd c :: r.2)

/-- The termination-signal and kill-signal stages of `Server::stop`
(src/daemon/server.rs:81-89), appended to an already-accumulated
action trace. -/
def termStage (env : StopEnv) (tr : List StopAction) : Except IoError ExitStatus × List StopAction :=
  match env.sigTerm with
  | some e => (.error e, tr ++ [.sigTerm])
  | none =>
    match env.waitTerm with
    | none => (.ok .Terminated, tr ++ [.sigTerm, .waited])
    | some _ =>
      match env.sigKill with
      | some e => (.error e, tr ++ [.sigTerm, .waited, .sigKill])
      | none =>
        match env.waitKill with
        | none => (.ok .Killed, tr ++ [.sigTerm, .waited, .sigKill, .waited])
        | some e => (.error e, tr ++ [.sigTerm, .waited, .sigKill, .waited])

/-- The `Server::stop` escalation ladder (src/daemon/server.rs:62-90),
paired with the trace of process-directed actions it performs. -/
def Server.stop (s : Server) (env : StopEnv) : Except IoError ExitStatus × List StopAction :=
  if s.alive = false then (.ok .AlreadyStopped, [])
  else if s.config.on_stop.isEmpty then termStage env []
  else
    let r := sendAll s.config.on_stop env.sendResults 0
    match r.1 with
    | some e => (.error e, r.2)
    | none =>
      match env.waitStop with
      | none => (.ok .Stopped, r.2 ++ [.waited])
      | some _ => termStage env (r.2 ++ [.waited])

/-- Whether the `on_stop` stage of `Server::stop` falls through to the
signal stages: either no `on_stop` commands are configured, or all of
them were sent successfully and the subsequent bounded wait failed. -/
def sendStageFallsThrough (s : Server) (env : StopEnv) : Prop :=
  s.config.on_stop = [] ∨
    ((∀ i, i < s.config.on_stop.length → env.sendResults i = none) ∧ env.waitStop ≠ none)

/-- The `truncate_back` function from `src/daemon/server.rs:230-242`:
keeps the last `len` elements (the raw-pointer manipulation of the
source amounts to dropping the oldest entries). -/
def truncate_back {α : Type} (vec : List α) (len : Nat) : List α :=
  if vec.length > len then vec.drop (vec.length - len) else vec

/-- The `MAX_LINES` constant from `src/daemon/server.rs`. -/
def MAX_LINES : Nat := 80

/-- The `Server::tail` method (src/daemon/server.rs:109-123): drains the
queued lines into the log, enforces the 80-line cap by evicting oldest
lines, and returns the slice of the most recent `lines` entries.
Returns the updated server together with the returned slice. -/
def Server.tail (s : Server) (lines : Nat) : Server × List String :=
  let log2 := truncate_back (s.log ++ s.pending) MAX_LINES
  let offset := if lines > log2.length then 0 else log2.length - lines
  ({ s with pending := [], log := log2 }, log2.drop offset)

/-- Parsing of a line-count argument, as the `str::parse::<usize>`
of the source: a non-empty all-digit string whose value fits the
machine word parses, anything else does not. -/
def parseUsize? (s : String) : Option Nat :=
  if s.length ≠ 0 ∧ s.data.all (fun c => c.isDigit) then
    let v := s.data.foldl (fun acc c => acc * 10 + (c.toNat - 48)) 0
    if v < 2 ^ 64 then some v else none
  else none

/-- The `MAX_TIMEOUTS` constant from `src/main.rs`. -/
def MAX_TIMEOUTS : Nat := 200

/-- The outcome of one `copy` iteration of
`RemoteDaemon::write_response` (src/daemon/remote.rs:53-72): data
arrived and the copy returned, the read timed out, or a non-timeout
I/O error occurred. -/
inductive ReadOutcome
  | dataRead
  | timedOut
  | ioErr
deriving DecidableEq

/-- Result of running the response-drain loop over a finite prefix of
read outcomes: the loop broke out (counter exceeded the maximum), an
I/O error propagated, or the supplied prefix was exhausted with the
loop still running.  Each constructor carries the timeout counter. -/
inductive DrainResult
  | finished (counter : Nat)
  | ioError (counter : Nat)
  | ranOut (counter : Nat)
deriving DecidableEq

/-- The drain loop of `RemoteDaemon::write_response`
(src/daemon/remote.rs:57-68), run over a finite prefix of read
outcomes with the given maximum and current timeout counter: a timeout
increments the counter and breaks once it exceeds the maximum, data
leaves the counter untouched, a non-timeout error propagates. -/
def drainFrom : List ReadOutcome → Nat → Nat → DrainResult
  | [], _, t => .ranOut t
  | .dataRead :: rest, maxT, t => drainFrom rest maxT t
  | .timedOut :: rest, maxT, t =>
    if t + 1 > maxT then .finished (t + 1) else drainFrom rest maxT (t + 1)
  | .ioErr :: _, _, t => .ioError t

/-- Modelled from the spec: the drain loop as the specification words
it, identical to `drainFrom` except that a read delivering data resets
the timeout counter to zero.  Used only to compare the specified
behaviour against the source's `drainFrom`. -/
def drainSpecReset : List ReadOutcome → Nat → Nat → DrainResult
  | [], _, t => .ranOut t
  | .dataRead :: rest, maxT, _ => drainSpecReset rest maxT 0
  | .timedOut :: rest, maxT, t =>
    if t + 1 > maxT then .finished (t + 1) else drainSpecReset rest maxT (t + 1)
  | .ioErr :: _, _, t => .ioError t

/-- Number of timed-out reads in a prefix of read outcomes. -/
def countTimeouts (l : List ReadOutcome) : Nat :=
  l.countP (fun o => decide (o = ReadOutcome.timedOut))

/-- What reading one line from a connected client yields this tick, in
`Daemon::manage_clients` (src/daemon/mod.rs:101-117): a line, a
timeout, or an error (including end-of-file). -/
inductive ClientRead
  | line (s : String)
  | timedOut
  | errored
deriving DecidableEq

/-- The index-collection part of the service pass of
`Daemon::manage_clients`: every client whose read did not yield a line
is recorded (by its position) in the `closed` list. -/
def closedIdxs : List ClientRead → Nat → List Nat
  | [], _ => []
  | .line _ :: rest, i => closedIdxs rest (i + 1)
  | .timedOut :: rest, i => i :: closedIdxs rest (i + 1)
  | .errored :: rest, i => i :: closedIdxs rest (i + 1)

/-- The `Vec::remove(idx)` call: removes the element at `idx`, shifting
the rest down; `none` models the panic on an out-of-bounds index. -/
def vecRemove {α : Type} (l : List α) (i : Nat) : Option (List α) :=
  if i < l.length then some (l.eraseIdx i) else none

/-- The removal loop `for idx in closed { clients.remove(idx) }` of
`Daemon::manage_clients` (src/daemon/mod.rs:119-121), applied
sequentially to the recorded indices. -/
def removeClosed {α : Type} : List α → List Nat → Option (List α)
  | l, [] => some l
  | l, i :: rest =>
    match vecRemove l i with
    | some l2 => removeClosed l2 rest
    | none => none

/-- One service pass of `Daemon::manage_clients` restricted to its
connection-removal effect: each client is tagged with an identifier and
the outcome its read produced this tick; the result is the surviving
client list (`none` models a panic in the removal loop). -/
def servicePhase (clients : List (Nat × ClientRead)) : Option (List (Nat × ClientRead)) :=
  removeClosed clients (closedIdxs (clients.map Prod.snd) 0)

/-- The `Daemon` structure from `src/daemon/mod.rs` (the acceptor is
not part of the registry logic modelled here). -/
structure Daemon where
  config : Config
  servers : List (String × Server)

/-- An observable side effect of a dispatched command, beyond the
response text: a `Server::spawn` attempt (with the configuration it was
given, tagged by the service name that triggered it) or a
`Server::stop` attempt on a registered instance. -/
inductive Effect
  | spawned (name : String) (cfg : ServerConfig)
  | stopAttempt (name : String)
deriving DecidableEq

/-- One item written to the client: a text line, or the raw
`client.write(&[0; 64])` zero-byte block. -/
inductive Out
  | text (s : String)
  | zeros (n : Nat)
deriving DecidableEq

/-- The `ClientError` enumeration from `src/daemon/mod.rs`. -/
inductive ClientError
  | Io (e : IoError)
  | Killed
deriving DecidableEq

/-- Outcomes of every fallible primitive a dispatched command can
invoke, beyond writes to the client (which are modelled as infallible
sinks): the result of each `Server::spawn`, the `StopEnv` governing a
`Server::stop` of the named instance, the outcome of an
`instance.send_command` (keyed by name and command text), the
`ServerInfo` accounting text for a live instance (or its read error),
and the result of `Config::load`. -/
structure DaemonEnv where
  spawnRes : ServerConfig → Except IoError Server
  stopEnvs : String → StopEnv
  sendRes : String → String → Option IoError
  statusInfo : String → Except IoError String
  loadResult : Except IoError Config

/-- The full result of dispatching one command: the daemon state after
the handler, the response items written to the issuing client, the
trace of process-level effects, and the handler's `ClientResult`. -/
structure HandlerResult where
  d : Daemon
  out : List Out
  effs : List Effect
  res : Except ClientError Unit

/-- The free function `stop_server` from `src/daemon/mod.rs:354-362`:
writes the announcement, runs `Server::stop`, and reports the exit
status or the failure; returns the text written and whether the stop
succeeded. -/
def stop_server (name : String) (inst : Server) (env : DaemonEnv) : List Out × Bool :=
  let hd := Out.text ("Sending stop command to \"" ++ name ++ "\"...")
  match (Server.stop inst (env.stopEnvs name)).1 with
  | .ok st => ([hd, .text ("\"" ++ name ++ "\" stopped. Status: " ++ st.describe)], true)
  | .error e => ([hd, .text ("Failed to stop \"" ++ name ++ "\"! Message: " ++ ioErrText e)], false)

/-- The `Daemon::start_server` handler (src/daemon/mod.rs:183-206). -/
def Daemon.start_server (d : Daemon) (env : DaemonEnv) (args : List String) : HandlerResult :=
  match args with
  | [] => ⟨d, [.text "Usage: start <server>"], [], .ok ()⟩
  | server :: _ =>
    match mapGet d.servers server with
    | some _ => ⟨d, [.text ("Server \"" ++ server ++ "\" already running!")], [], .ok ()⟩
    | none =>
      match mapGet d.config.servers server with
      | some cfg =>
        match env.spawnRes cfg with
        | .ok inst =>
          ⟨{ d with servers := mapInsert d.servers server inst },
           [.text ("Starting \"" ++ server ++ "\"..."),
            .text ("Server \"" ++ server ++ "\" started!")],
           [.spawned server cfg], .ok ()⟩
        | .error e =>
          ⟨d,
           [.text ("Starting \"" ++ server ++ "\"..."),
            .text ("Error starting \"" ++ server ++ "\": " ++ ioErrText e)],
           [.spawned server cfg], .ok ()⟩
      | none => ⟨d, [.text ("No configuration for \"" ++ server ++ "\"")], [], .ok ()⟩

/-- The `Daemon::stop_server` handler (src/daemon/mod.rs:208-220). -/
def Daemon.stop_server (d : Daemon) (env : DaemonEnv) (args : List String) : HandlerResult :=
  match args with
  | [] => ⟨d, [.text "Usage: stop <server>"], [], .ok ()⟩
  | server :: _ =>
    match mapGet d.servers server with
    | some inst =>
      ⟨{ d with servers := mapRemoveKey d.servers server },
       (Shepherd.stop_server server inst env).1, [.stopAttempt server], .ok ()⟩
    | none =>
      ⟨d, [.text ("No running instance of \"" ++ server ++ "\"")], [], .ok ()⟩

/-- The `Daemon::restart_server` handler (src/daemon/mod.rs:222-246). -/
def Daemon.restart_server (d : Daemon) (env : DaemonEnv) (args : List String) : HandlerResult :=
  match args with
  | [] => ⟨d, [.text "Usage: restart <server>"], [], .ok ()⟩
  | server :: _ =>
    let stopped :=
      match mapGet d.servers server with
      | some inst =>
        let r := Shepherd.stop_server server inst env
        ({ d with servers := mapRemoveKey d.servers server }, r.1, [Effect.stopAttempt server], r.2)
      | none =>
        (d, [Out.text ("\"" ++ server ++ "\" was not running! Starting anyways...")],
         ([] : List Effect), true)
    match stopped with
    | (d1, out1, effs1, ok) =>
      if ok = false then ⟨d1, out1, effs1, .ok ()⟩
      else
        match mapGet d1.config.servers server with
        | some cfg =>
          match env.spawnRes cfg with
          | .ok inst =>
            ⟨{ d1 with servers := mapInsert d1.servers server inst },
             out1 ++ [.text ("Server \"" ++ server ++ "\" started!")],
             effs1 ++ [.spawned server cfg], .ok ()⟩
          | .error e => ⟨d1, out1, effs1 ++ [.spawned server cfg], .error (.Io e)⟩
        | none =>
          ⟨d1,
           out1 ++ [.text ("No configuration for \"" ++ server ++ "\"! Did the configuration change?")],
           effs1, .ok ()⟩

/-- The `Daemon::server_status` handler (src/daemon/mod.rs:248-261);
`Server::write_status` is inlined (it writes a running line from the
process accounting, or a stopped line, and propagates accounting read
failures). -/
def Daemon.server_status (d : Daemon) (env : DaemonEnv) (args : List String) : HandlerResult :=
  match args with
  | [] => ⟨d, [.text "Usage: status <server>"], [], .ok ()⟩
  | server :: _ =>
    match mapGet d.servers server with
    | some inst =>
      let o1 := Out.text ("Server instance \"" ++ server ++ "\" ")
      if inst.alive then
        match env.statusInfo server with
        | .ok info => ⟨d, [o1, .text ("Status: Running [" ++ info ++ "]")], [], .ok ()⟩
        | .error e => ⟨d, [o1], [], .error (.Io e)⟩
      else ⟨d, [o1, .text "Status: Stopped"], [], .ok ()⟩
    | none =>
      ⟨d, [.text ("No running instance of \"" ++ server ++ "\"")], [], .ok ()⟩

/-- The `DEFAULT_LINE_COUNT` constant of `Daemon::server_tail`. -/
def DEFAULT_LINE_COUNT : Nat := 20

/-- The `Daemon::server_tail` handler (src/daemon/mod.rs:263-283): the
optional second argument is parsed as a line count, silently falling
back to the default on a missing or unparseable value. -/
def Daemon.server_tail (d : Daemon) (_env : DaemonEnv) (args : List String) : HandlerResult :=
  match args with
  | [] => ⟨d, [.text "Usage: tail <server> [lines]"], [], .ok ()⟩
  | server :: rest =>
    let lines := (rest.head?.bind parseUsize?).getD DEFAULT_LINE_COUNT
    match mapGet d.servers server with
    | some inst =>
      let r := Server.tail inst lines
      ⟨{ d with servers := mapInsert d.servers server r.1 },
       .text ("Last " ++ toString lines ++ " lines from \"" ++ server ++ "\":")
         :: r.2.map Out.text,
       [], .ok ()⟩
    | none =>
      ⟨d, [.text ("No running instance of \"" ++ server ++ "\"")], [], .ok ()⟩

/-- The `Daemon::server_send` handler (src/daemon/mod.rs:285-304). -/
def Daemon.server_send (d : Daemon) (env : DaemonEnv) (args : List String) : HandlerResult :=
  match args with
  | [] => ⟨d, [.text "Usage: send <server> <command>"], [], .ok ()⟩
  | server :: rest =>
    let command := String.intercalate " " rest
    match mapGet d.servers server with
    | some inst =>
      let o1 := Out.text ("Sending command to \"" ++ server ++ "\": " ++ command)
      match env.sendRes server command with
      | some e => ⟨d, [o1], [], .error (.Io e)⟩
      | none =>
        let r := Server.tail inst 1
        let d2 : Daemon := { d with servers := mapInsert d.servers server r.1 }
        match r.2.head? with
        | some line => ⟨d2, [o1, .text ("\"" ++ server ++ "\": " ++ line)], [], .ok ()⟩
        | none => ⟨d2, [o1], [], .ok ()⟩
    | none =>
      ⟨d, [.text ("No running instance of \"" ++ server ++ "\"")], [], .ok ()⟩

/-- Rendering of a `ServerConfig` in `list_servers` output (the Rust
`Show` implementation; the argument-list rendering is abstracted). -/
def showConfig (c : ServerConfig) : String :=
  "directory: " ++ c.dir ++ "\ncommand: " ++ c.command ++ "\nargs: "
    ++ String.intercalate ", " c.args

/-- The `Daemon::list_servers` handler (src/daemon/mod.rs:306-312). -/
def Daemon.list_servers (d : Daemon) : HandlerResult :=
  ⟨d,
   .text "Servers:"
     :: d.config.servers.map (fun p => .text ("\"" ++ p.1 ++ "\":\n" ++ showConfig p.2)),
   [], .ok ()⟩

/-- The per-instance loop of `Daemon::list_instances`: writes each name
and its status, propagating the first accounting read failure. -/
def listInstancesGo (env : DaemonEnv) : List (String × Server) → List Out → List Out × Except ClientError Unit
  | [], acc => (acc, .ok ())
  | (n, i) :: rest, acc =>
    let h := Out.text ("\"" ++ n ++ "\" ")
    if i.alive then
      match env.statusInfo n with
      | .ok info => listInstancesGo env rest (acc ++ [h, .text ("Status: Running [" ++ info ++ "]")])
      | .error e => (acc ++ [h], .error (.Io e))
    else listInstancesGo env rest (acc ++ [h, .text "Status: Stopped"])

/-- The `Daemon::list_instances` handler (src/daemon/mod.rs:314-321). -/
def Daemon.list_instances (d : Daemon) (env : DaemonEnv) : HandlerResult :=
  let r := listInstancesGo env d.servers [.text "Running instances:"]
  ⟨d, r.1, [], r.2⟩

/-- The `Daemon::reload_config` handler (src/daemon/mod.rs:323-335). -/
def Daemon.reload_config (d : Daemon) (env : DaemonEnv) : HandlerResult :=
  let o1 := Out.text "Reloading config. Will not affect existing server instances."
  match env.loadResult with
  | .ok c => ⟨{ d with config := c }, [o1, .text "Config reloaded."], [], .ok ()⟩
  | .error e => ⟨d, [o1, .text ("Failed to load config: " ++ ioErrText e)], [], .ok ()⟩

/-- The closing text written by `Daemon::kill_daemon` before the zero
sentinel. -/
def killText : String := "Daemon exiting. Any servers that failed to stop will die now."

/-- The `Daemon::kill_daemon` handler (src/daemon/mod.rs:337-351):
drains the whole registry, best-effort-stopping every instance
(individual stop failures are discarded), then writes the shutdown text
followed by the 64-byte all-zero sentinel and returns the `Killed`
unwind signal. -/
def Daemon.kill_daemon (d : Daemon) (env : DaemonEnv) : HandlerResult :=
  ⟨{ d with servers := [] },
   .text "Killing servers..."
     :: (d.servers.map (fun p => (Shepherd.stop_server p.1 p.2 env).1)).flatten
     ++ [.text killText, .zeros 64],
   d.servers.map (fun p => .stopAttempt p.1),
   .error .Killed⟩

/-- The operations table written by `list_ops` (src/daemon/mod.rs:364-378). -/
def opsText : String :=
  "\nshepherd ops:\n    start <server>\n    stop <server> \n    restart <server>\n    tail <server> [lines]\n    send <server> <commandt\n    status <server>\n    servers\n    instances\n    ops\n    kill-daemon\n"

/-- The `list_ops` free function. -/
def list_ops : List Out := [.text opsText]

/-- The `Daemon::match_op` dispatcher (src/daemon/mod.rs:157-181): an
empty command prints the table; otherwise the first word selects the
handler, unknown words print an error plus the table. -/
def Daemon.match_op (d : Daemon) (env : DaemonEnv) (args : List String) : HandlerResult :=
  match args with
  | [] => ⟨d, list_ops, [], .ok ()⟩
  | op :: rest =>
    match op with
    | "start" => d.start_server env rest
    | "stop" => d.stop_server env rest
    | "restart" => d.restart_server env rest
    | "status" => d.server_status env rest
    | "tail" => d.server_tail env rest
    | "send" => d.server_send env rest
    | "servers" => d.list_servers
    | "instances" => d.list_instances env
    | "reload-config" => d.reload_config env
    | "kill-daemon" => d.kill_daemon env
    | "ops" => ⟨d, list_ops, [], .ok ()⟩
    | _ => ⟨d, .text ("Unrecognized command: " ++ op) :: list_ops, [], .ok ()⟩

/-- One entry's treatment in `Daemon::check_instances`
(src/daemon/mod.rs:126-155): a dead instance flagged for auto-restart
has its last five log lines printed (which drains and caps its log),
then is respawned from the current configuration if one exists (the old
instance is kept when the respawn fails), or marked for removal when
its configuration has vanished; every other entry is untouched.
Returns the surviving entry (`none` = removed) and the spawn-attempt
effects. -/
def checkEntry (cfgm : List (String × ServerConfig)) (env : DaemonEnv) (p : String × Server) :
    Option (String × Server) × List Effect :=
  if p.2.is_alive = false ∧ p.2.auto_restart = true then
    let tailed := (Server.tail p.2 5).1
    match mapGet cfgm p.1 with
    | some cfg =>
      match env.spawnRes cfg with
      | .ok newInst => (some (p.1, newInst), [.spawned p.1 cfg])
      | .error _ => (some (p.1, tailed), [.spawned p.1 cfg])
    | none => (none, [])
  else (some p, [])

/-- The `Daemon::check_instances` health pass (src/daemon/mod.rs:126-155). -/
def Daemon.check_instances (d : Daemon) (env : DaemonEnv) : Daemon × List Effect :=
  ({ d with servers := d.servers.filterMap (fun p => (checkEntry d.config.servers env p).1) },
   (d.servers.map (fun p => (checkEntry d.config.servers env p).2)).flatten)

deriving instance DecidableEq for Except

/-- A concrete configuration used by the concrete-input theorems below. -/
def cexConfig : ServerConfig :=
  { dir := "/srv", command := "sleep", args := ["100"], auto_restart := none,
    on_stop := [], stop_timeout := none }

/-- A live instance with no `on_stop` commands. -/
def cexServer : Server :=
  { config := cexConfig, alive := true, pending := [], log := [] }

/-- A stop environment in which both the post-termination-signal wait
and the post-kill-signal wait fail (time out), while every signal and
send succeeds. -/
def cexStopEnv : StopEnv :=
  { sendResults := fun _ => none, waitStop := none, sigTerm := none,
    waitTerm := some ⟨1⟩, sigKill := none, waitKill := some ⟨2⟩ }

/-- A live instance with one configured `on_stop` command. -/
def wServer : Server :=
  { config := { cexConfig with on_stop := ["quit"] }, alive := true,
    pending := [], log := [] }

/-- A stop environment: sends succeed, the wait after the stop commands
fails, the wait after the termination signal fails, and the wait after
the kill signal succeeds. -/
def wStopEnv : StopEnv :=
  { sendResults := fun _ => none, waitStop := some ⟨3⟩, sigTerm := none,
    waitTerm := some ⟨1⟩, sigKill := none, waitKill := none }

/-- A not-alive instance flagged for auto-restart. -/
def deadAutoServer : Server :=
  { config := { cexConfig with auto_restart := some true }, alive := false,
    pending := ["late line"], log := ["first", "second"] }

/-- A concrete daemon environment whose spawns fail, whose stops follow
`cexStopEnv`, and whose configuration reload fails. -/
def env0 : DaemonEnv :=
  { spawnRes := fun _ => .error ⟨9⟩, stopEnvs := fun _ => cexStopEnv,
    sendRes := fun _ _ => none, statusInfo := fun _ => .ok "info",
    loadResult := .error ⟨7⟩ }

/-- A concrete daemon environment whose spawns succeed and whose
configuration reload succeeds. -/
def envOk : DaemonEnv :=
  { spawnRes := fun _ => .ok cexServer, stopEnvs := fun _ => wStopEnv,
    sendRes := fun _ _ => none, statusInfo := fun _ => .ok "info",
    loadResult := .ok ⟨"/tmp/other.sock", [], []⟩ }

/-- A concrete daemon with one running instance `web` whose
configuration knows `web`. -/
def d0 : Daemon :=
  { config := { socket_path := "/tmp/shepherd.sock", start_servers := [],
                servers := [("web", cexConfig)] },
    servers := [("web", cexServer)] }

/-- A concrete daemon with a dead auto-restart instance `web` (still
configured), a live instance `db`, and a dead auto-restart instance
`gone` whose configuration has vanished. -/
def d1 : Daemon :=
  { config := { socket_path := "/tmp/shepherd.sock", start_servers := [],
                servers := [("web", cexConfig)] },
    servers := [("web", deadAutoServer), ("db", cexServer), ("gone", deadAutoServer)] }

/-- C4: for every supervised instance and every requested count `n`,
`tail n` returns exactly `min n buffered` lines, where `buffered` is the
retained buffer size after the call; the returned lines are the final
(most recent) segment of the buffer in oldest-to-newest order; the
retained buffer never exceeds 80 lines and is a suffix (oldest lines
evicted first) of the previous buffer extended by everything the child
produced. -/
theorem C4_tail_bounds (s : Server) (n : Nat) :
    ((s.tail n).2).length = min n (s.tail n).1.log.length ∧
    (s.tail n).2 = (s.tail n).1.log.drop ((s.tail n).1.log.length - n) ∧
    (s.tail n).1.log.length ≤ MAX_LINES ∧
    (s.tail n).1.log <:+ (s.log ++ s.pending) ∧
    (s.tail n).2 <:+ (s.tail n).1.log := by
  have hlog : (s.tail n).1.log = truncate_back (s.log ++ s.pending) MAX_LINES := rfl
  have hlen : (truncate_back (s.log ++ s.pending) MAX_LINES).length ≤ MAX_LINES := by
    unfold truncate_back
    split
    · simp only [List.length_drop]
      omega
    · omega
  have hsfx : truncate_back (s.log ++ s.pending) MAX_LINES <:+ (s.log ++ s.pending) := by
    unfold truncate_back
    split
    · exact List.drop_suffix _ _
    · exact List.suffix_refl _
  have hout : (s.tail n).2 =
      (truncate_back (s.log ++ s.pending) MAX_LINES).drop
        (if n > (truncate_back (s.log ++ s.pending) MAX_LINES).length then 0
         else (truncate_back (s.log ++ s.pending) MAX_LINES).length - n) := rfl
  refine ⟨?_, ?_, hlog ▸ hlen, hlog ▸ hsfx, ?_⟩
  · rw [hout, hlog]
    split <;> simp <;> omega
  · rw [hout, hlog]
    split
    · have h0 : (truncate_back (s.log ++ s.pending) MAX_LINES).length - n = 0 := by omega
      rw [h0]
    · rfl
  · rw [hout, hlog]
    exact List.drop_suffix _ _

/-- C9 is settled by evaluating the modelled service pass of
`Daemon::manage_clients` at concrete inputs: with reads
`[errored, errored, line]` the index-shifted removal keeps the second
errored connection and removes the healthy third one; with two
simultaneously errored connections the removal loop indexes out of
bounds (a panic, modelled as `none`); a connection whose read merely
times out is removed rather than kept. -/
theorem C9_service_pass_removal :
    servicePhase [(0, .errored), (1, .errored), (2, .line "status web")] = some [(1, .errored)] ∧
    servicePhase [(0, .errored), (1, .errored)] = none ∧
    servicePhase [(0, .timedOut)] = some ([] : List (Nat × ClientRead)) := by decide

/-- C8, counterexample: after the reads timeout, data, timeout with a
maximum of 1, the source's drain loop has counter 2 and has terminated,
while the drain described by the claim (data resets the counter) has
counter 1 and is still running: a data read does not reset the
counter. -/
theorem C8_counter_reset_counterexample :
    drainFrom [ReadOutcome.timedOut, .dataRead, .timedOut] 1 0 = .finished 2 ∧
    drainSpecReset [ReadOutcome.timedOut, .dataRead, .timedOut] 1 0 = .ranOut 1 := by decide

/-- C1, counterexample: on a live instance with no `on_stop` commands,
when the wait after the termination signal fails and the kill signal is
sent but the final wait also fails, `Server::stop` returns the final
wait's I/O error, not `Killed` as the claim states. -/
theorem C1_kill_wait_counterexample :
    cexServer.alive = true ∧ cexServer.config.on_stop = [] ∧
    cexStopEnv.sigTerm = none ∧ cexStopEnv.waitTerm = some ⟨1⟩ ∧
    cexStopEnv.sigKill = none ∧
    StopAction.sigKill ∈ (Server.stop cexServer cexStopEnv).2 ∧
    (Server.stop cexServer cexStopEnv).1 = .error ⟨2⟩ := by decide

/-- When every send in scope succeeds, the `on_stop` loop sends each
command in order and reports no error. -/
theorem sendAll_ok (cmds : List String) (f : Nat → Option IoError) (k : Nat)
    (h : ∀ i, i < cmds.length → f (k + i) = none) :
    sendAll cmds f k = (none, cmds.map StopAction.sendCmd) := by
  induction cmds generalizing k with
  | nil => rfl
  | cons c rest ih =>
    have h0 : f k = none := by
      have := h 0 (by simp)
      simpa using this
    have hr : sendAll rest f (k + 1) = (none, rest.map StopAction.sendCmd) := by
      refine ih (k + 1) (fun i hi => ?_)
      have hlt : i + 1 < (c :: rest).length := by simpa using Nat.succ_lt_succ hi
      have := h (i + 1) hlt
      have heq : k + (i + 1) = k + 1 + i := by omega
      rw [heq] at this
      exact this
    simp [sendAll, h0, hr]

/-- The signal stages yield `Terminated` when the termination signal is
delivered and the following bounded wait succeeds. -/
theorem termStage_terminated (env : StopEnv) (tr : List StopAction)
    (h1 : env.sigTerm = none) (h2 : env.waitTerm = none) :
    termStage env tr = (.ok .Terminated, tr ++ [.sigTerm, .waited]) := by
  simp [termStage, h1, h2]

/-- The signal stages yield `Killed` when the wait after the
termination signal fails, the kill signal is delivered, and the final
bounded wait succeeds. -/
theorem termStage_killed (env : StopEnv) (tr : List StopAction)
    (h1 : env.sigTerm = none) (h2 : env.waitTerm ≠ none)
    (h3 : env.sigKill = none) (h4 : env.waitKill = none) :
    termStage env tr = (.ok .Killed, tr ++ [.sigTerm, .waited, .sigKill, .waited]) := by
  obtain ⟨e, he⟩ := Option.ne_none_iff_exists'.mp h2
  simp [termStage, h1, he, h3, h4]

/-- C1, amended: the `Server::stop` escalation ladder.  A not-alive
instance yields `AlreadyStopped` with no action taken; configured
`on_stop` commands are sent in order and a successful bounded wait
yields `Stopped`; otherwise (no commands, or that wait failed) a
termination signal plus successful wait yields `Terminated`; if that
wait also fails, a kill signal is sent and the result is `Killed`
provided the final bounded wait succeeds (the claim's unconditional
`Killed` is refuted by `C1_kill_wait_counterexample`).  Every wait is
bounded by the timeout installed at the top of `stop`, which is the
configured `stop_timeout` defaulting to 10000 ms. -/
theorem C1_stop_escalation_ladder (s : Server) (env : StopEnv) :
    (s.alive = false → Server.stop s env = (.ok .AlreadyStopped, [])) ∧
    (s.alive = true →
      s.config.on_stop ≠ [] →
      (∀ i, i < s.config.on_stop.length → env.sendResults i = none) →
      env.waitStop = none →
      Server.stop s env =
        (.ok .Stopped, s.config.on_stop.map StopAction.sendCmd ++ [.waited])) ∧
    (s.alive = true → sendStageFallsThrough s env →
      env.sigTerm = none → env.waitTerm = none →
      (Server.stop s env).1 = .ok .Terminated) ∧
    (s.alive = true → sendStageFallsThrough s env →
      env.sigTerm = none → env.waitTerm ≠ none →
      env.sigKill = none → env.waitKill = none →
      (Server.stop s env).1 = .ok .Killed) ∧
    Server.stopTimeoutMs s = some (s.config.stop_timeout.getD 10000) := by
  refine ⟨?_, ?_, ?_, ?_, ?_⟩
  · intro h
    simp [Server.stop, h]
  · intro ha hne hsends hw
    have hs : sendAll s.config.on_stop env.sendResults 0 =
        (none, s.config.on_stop.map StopAction.sendCmd) := by
      refine sendAll_ok _ _ 0 (fun i hi => ?_)
      simpa using hsends i hi
    have hemp : s.config.on_stop.isEmpty = false := by
      simpa [List.isEmpty_iff] using hne
    simp [Server.stop, ha, hemp, hs, hw]
  · intro ha hfall h1 h2
    by_cases hemp : s.config.on_stop.isEmpty
    · simp [Server.stop, ha, hemp, termStage_terminated env [] h1 h2]
    · rcases hfall with h | ⟨hsends, hwfail⟩
      · exact absurd (List.isEmpty_iff.mpr h) hemp
      · obtain ⟨e, he⟩ := Option.ne_none_iff_exists'.mp hwfail
        have hs : sendAll s.config.on_stop env.sendResults 0 =
            (none, s.config.on_stop.map StopAction.sendCmd) := by
          refine sendAll_ok _ _ 0 (fun i hi => ?_)
          simpa using hsends i hi
        simp [Server.stop, ha, hemp, hs, he,
          termStage_terminated env (s.config.on_stop.map StopAction.sendCmd ++ [.waited]) h1 h2]
  · intro ha hfall h1 h2 h3 h4
    by_cases hemp : s.config.on_stop.isEmpty
    · simp [Server.stop, ha, hemp, termStage_killed env [] h1 h2 h3 h4]
    · rcases hfall with h | ⟨hsends, hwfail⟩
      · exact absurd (List.isEmpty_iff.mpr h) hemp
      · obtain ⟨e, he⟩ := Option.ne_none_iff_exists'.mp hwfail
        have hs : sendAll s.config.on_stop env.sendResults 0 =
            (none, s.config.on_stop.map StopAction.sendCmd) := by
          refine sendAll_ok _ _ 0 (fun i hi => ?_)
          simpa using hsends i hi
        simp [Server.stop, ha, hemp, hs, he,
          termStage_killed env (s.config.on_stop.map StopAction.sendCmd ++ [.waited]) h1 h2 h3 h4]
  · cases h : s.config.stop_timeout <;>
      simp [Server.stopTimeoutMs, STOP_TIMEOUT, Option.or, h]

/-- C1, witness at concrete inputs: a not-alive instance short-circuits
to `AlreadyStopped`; a live instance whose stop command is sent but
whose graceful and termination waits fail ends `Killed` once the final
wait succeeds. -/
theorem C1_stop_escalation_ladder_witness :
    Server.stop { cexServer with alive := false } wStopEnv = (.ok .AlreadyStopped, []) ∧
    (Server.stop wServer wStopEnv).1 = .ok .Killed :=
  ⟨(C1_stop_escalation_ladder { cexServer with alive := false } wStopEnv).1 rfl,
   (C1_stop_escalation_ladder wServer wStopEnv).2.2.2.1 rfl
     (Or.inr ⟨by decide, by decide⟩) rfl (by decide) rfl rfl⟩

/-- A timed-out read adds one to the timeout count. -/
theorem countTimeouts_cons_timeout (l : List ReadOutcome) :
    countTimeouts (ReadOutcome.timedOut :: l) = countTimeouts l + 1 := by
  simp [countTimeouts, List.countP_cons]

/-- A data read leaves the timeout count unchanged. -/
theorem countTimeouts_cons_data (l : List ReadOutcome) :
    countTimeouts (ReadOutcome.dataRead :: l) = countTimeouts l := by
  simp [countTimeouts, List.countP_cons]

/-- With no I/O error among the reads, the drain loop runs off the end
of the supplied prefix exactly when the timeouts seen so far never push
the counter past the maximum, and the final counter is the starting
counter plus the number of timed-out reads: the counter is never
reset. -/
theorem drainFrom_ranOut (l : List ReadOutcome) (maxT t : Nat)
    (hne : ReadOutcome.ioErr ∉ l) (hle : t + countTimeouts l ≤ maxT) :
    drainFrom l maxT t = .ranOut (t + countTimeouts l) := by
  induction l generalizing t with
  | nil => simp [drainFrom, countTimeouts]
  | cons o rest ih =>
    have hner : ReadOutcome.ioErr ∉ rest := fun hm => hne (List.mem_cons_of_mem _ hm)
    cases o with
    | dataRead =>
      rw [drainFrom, countTimeouts_cons_data]
      rw [countTimeouts_cons_data] at hle
      exact ih t hner hle
    | timedOut =>
      rw [drainFrom]
      rw [countTimeouts_cons_timeout] at hle
      have hb : ¬ t + 1 > maxT := by omega
      rw [if_neg hb]
      have := ih (t + 1) hner (by omega)
      rw [this, countTimeouts_cons_timeout]
      congr 1
      omega
    | ioErr => exact absurd (List.mem_cons_self _ _) hne

/-- With no I/O error among the reads, once the cumulative timeouts
would push the counter past the maximum, the drain loop terminates with
the counter at exactly `maxT + 1`: the first timeout taking the counter
past the maximum breaks the loop. -/
theorem drainFrom_finished (l : List ReadOutcome) (maxT t : Nat)
    (hne : ReadOutcome.ioErr ∉ l) (ht : t ≤ maxT) (hgt : t + countTimeouts l > maxT) :
    drainFrom l maxT t = .finished (maxT + 1) := by
  induction l generalizing t with
  | nil =>
    exfalso
    simp [countTimeouts] at hgt
    omega
  | cons o rest ih =>
    have hner : ReadOutcome.ioErr ∉ rest := fun hm => hne (List.mem_cons_of_mem _ hm)
    cases o with
    | dataRead =>
      rw [drainFrom]
      rw [countTimeouts_cons_data] at hgt
      exact ih t hner ht hgt
    | timedOut =>
      rw [drainFrom]
      rw [countTimeouts_cons_timeout] at hgt
      by_cases hb : t + 1 > maxT
      · rw [if_pos hb]
        have heq : t + 1 = maxT + 1 := by omega
        rw [heq]
      · rw [if_neg hb]
        exact ih (t + 1) hner (by omega) (by omega)
    | ioErr => exact absurd (List.mem_cons_self _ _) hne

/-- C8, amended: in the `RemoteDaemon::write_response` drain, over any
error-free sequence of read outcomes, each read timeout increments the
timeout counter without being an error, a read that delivers data
leaves the counter unchanged (it is never reset to zero — see
`C8_counter_reset_counterexample`), and the drain terminates exactly
when the cumulative number of timeouts exceeds `max_timeouts`, whose
default is 200. -/
theorem C8_drain_cumulative_timeouts (l : List ReadOutcome) (maxT : Nat)
    (hne : ReadOutcome.ioErr ∉ l) :
    (countTimeouts l ≤ maxT → drainFrom l maxT 0 = .ranOut (countTimeouts l)) ∧
    (countTimeouts l > maxT → drainFrom l maxT 0 = .finished (maxT + 1)) ∧
    MAX_TIMEOUTS = 200 := by
  refine ⟨?_, ?_, rfl⟩
  · intro h
    simpa using drainFrom_ranOut l maxT 0 hne (by omega)
  · intro h
    exact drainFrom_finished l maxT 0 hne (Nat.zero_le _) (by omega)

/-- C8, witness at concrete inputs: two cumulative timeouts among data
reads leave the drain running with counter 2 when the maximum is 200,
and terminate it when the maximum is 1. -/
theorem C8_drain_cumulative_timeouts_witness :
    drainFrom [ReadOutcome.timedOut, .dataRead, .timedOut] 200 0 =
      .ranOut (countTimeouts [ReadOutcome.timedOut, .dataRead, .timedOut]) ∧
    drainFrom [ReadOutcome.timedOut, .dataRead, .timedOut] 1 0 = .finished (1 + 1) :=
  ⟨(C8_drain_cumulative_timeouts [ReadOutcome.timedOut, .dataRead, .timedOut] 200
      (by decide)).1 (by decide),
   (C8_drain_cumulative_timeouts [ReadOutcome.timedOut, .dataRead, .timedOut] 1
      (by decide)).2.1 (by decide)⟩

/-- An entry that is alive or not flagged for auto-restart is passed
through the health check untouched. -/
theorem checkEntry_not_action (cfgm : List (String × ServerConfig)) (env : DaemonEnv)
    (p : String × Server) (h : ¬ (p.2.is_alive = false ∧ p.2.auto_restart = true)) :
    checkEntry cfgm env p = (some p, []) := by
  simp [checkEntry, h]

/-- A dead auto-restart entry whose configuration has vanished is
dropped by the health check, with no spawn attempt. -/
theorem checkEntry_drop (cfgm : List (String × ServerConfig)) (env : DaemonEnv)
    (p : String × Server) (h : p.2.is_alive = false ∧ p.2.auto_restart = true)
    (hc : mapGet cfgm p.1 = none) :
    checkEntry cfgm env p = (none, []) := by
  simp [checkEntry, h, hc]

/-- A dead auto-restart entry whose configuration is still present gets
exactly one spawn attempt and stays registered under its name. -/
theorem checkEntry_spawn (cfgm : List (String × ServerConfig)) (env : DaemonEnv)
    (p : String × Server) (cfg : ServerConfig)
    (h : p.2.is_alive = false ∧ p.2.auto_restart = true)
    (hc : mapGet cfgm p.1 = some cfg) :
    (checkEntry cfgm env p).2 = [Effect.spawned p.1 cfg] ∧
    ∃ j, (checkEntry cfgm env p).1 = some (p.1, j) := by
  cases hs : env.spawnRes cfg with
  | ok ni =>
    exact ⟨by simp [checkEntry, h, hc, hs], ni, by simp [checkEntry, h, hc, hs]⟩
  | error e =>
    exact ⟨by simp [checkEntry, h, hc, hs], (Server.tail p.2 5).1,
      by simp [checkEntry, h, hc, hs]⟩

/-- The health check never renames an entry: a surviving entry keeps
the key of the entry it came from. -/
theorem checkEntry_key (cfgm : List (String × ServerConfig)) (env : DaemonEnv)
    (p q : String × Server) (h : (checkEntry cfgm env p).1 = some q) : q.1 = p.1 := by
  by_cases ha : p.2.is_alive = false ∧ p.2.auto_restart = true
  · cases hc : mapGet cfgm p.1 with
    | none =>
      rw [checkEntry_drop cfgm env p ha hc] at h
      cases h
    | some cfg =>
      obtain ⟨j, hj⟩ := (checkEntry_spawn cfgm env p cfg ha hc).2
      rw [hj] at h
      cases h
      rfl
  · rw [checkEntry_not_action cfgm env p ha] at h
    cases h
    rfl

/-- In a list whose keys are nodup, any member sharing the key of a
given member is that member. -/
theorem nodup_key_eq {α : Type} (l : List (String × α)) :
    (l.map Prod.fst).Nodup → ∀ (n : String) (i : α), (n, i) ∈ l →
      ∀ q, q ∈ l → q.1 = n → q = (n, i) := by
  induction l with
  | nil =>
    intro _ n i hmem
    cases hmem
  | cons hd tl ih =>
    intro hnd n i hmem q hq hkey
    rw [List.map_cons, List.nodup_cons] at hnd
    rcases List.mem_cons.mp hmem with h1 | h1
    · rcases List.mem_cons.mp hq with h2 | h2
      · rw [h2, ← h1]
      · exfalso
        apply hnd.1
        rw [← h1]
        have hx : q.1 ∈ List.map Prod.fst tl := List.mem_map_of_mem Prod.fst h2
        rw [hkey] at hx
        exact hx
    · rcases List.mem_cons.mp hq with h2 | h2
      · exfalso
        apply hnd.1
        have hh : hd.1 = n := by
          rw [← h2]
          exact hkey
        rw [hh]
        exact List.mem_map_of_mem Prod.fst h1
      · exact ih hnd.2 n i h1 q h2 hkey

/-- Absence of a key from the association-list model, elementwise. -/
theorem mapGet_eq_none_iff {α : Type} (m : List (String × α)) (k : String) :
    mapGet m k = none ↔ ∀ p ∈ m, p.1 ≠ k := by
  unfold mapGet
  rw [Option.map_eq_none', List.find?_eq_none]
  simp

/-- Every spawn attempt of a health pass comes from a registered entry
that was dead, flagged for auto-restart, and still configured under the
spawned name. -/
theorem checkInstances_spawned_inv (d : Daemon) (env : DaemonEnv) (n : String)
    (cfg : ServerConfig)
    (hmem : Effect.spawned n cfg ∈ (d.check_instances env).2) :
    ∃ i, (n, i) ∈ d.servers ∧ i.is_alive = false ∧ i.auto_restart = true ∧
      mapGet d.config.servers n = some cfg := by
  obtain ⟨lst, hlst, hin⟩ := List.mem_flatten.mp hmem
  obtain ⟨p, hp, rfl⟩ := List.mem_map.mp hlst
  by_cases hact : p.2.is_alive = false ∧ p.2.auto_restart = true
  · cases hc : mapGet d.config.servers p.1 with
    | none =>
      rw [show (checkEntry d.config.servers env p).2 = [] from
        congrArg Prod.snd (checkEntry_drop d.config.servers env p hact hc)] at hin
      cases hin
    | some cfg2 =>
      rw [(checkEntry_spawn d.config.servers env p cfg2 hact hc).1] at hin
      rcases List.mem_singleton.mp hin with heq
      obtain ⟨hn, hcfg⟩ := Effect.spawned.inj heq
      refine ⟨p.2, ?_, hact.1, hact.2, ?_⟩
      · have : (n, p.2) = p := by
          rw [hn]
        rw [this]
        exact hp
      · rw [hn, hc, hcfg]
  · rw [show (checkEntry d.config.servers env p).2 = [] from
      congrArg Prod.snd (checkEntry_not_action d.config.servers env p hact)] at hin
    cases hin

/-- C6: a health pass attempts a respawn for exactly those registry
entries that are not alive, flagged `auto_restart`, and still
configured; it deregisters (without a spawn attempt) exactly those
not-alive auto-restart entries whose configuration has vanished; every
other entry is passed through untouched, and the daemon's
configuration is not modified. -/
theorem C6_health_check_exact (d : Daemon) (env : DaemonEnv)
    (hnd : (d.servers.map Prod.fst).Nodup) :
    ((d.check_instances env).1.config = d.config) ∧
    (∀ n i cfg, (n, i) ∈ d.servers → i.is_alive = false → i.auto_restart = true →
      mapGet d.config.servers n = some cfg →
      Effect.spawned n cfg ∈ (d.check_instances env).2 ∧
      ∃ j, (n, j) ∈ (d.check_instances env).1.servers) ∧
    (∀ n cfg, Effect.spawned n cfg ∈ (d.check_instances env).2 →
      ∃ i, (n, i) ∈ d.servers ∧ i.is_alive = false ∧ i.auto_restart = true ∧
        mapGet d.config.servers n = some cfg) ∧
    (∀ n i, (n, i) ∈ d.servers → i.is_alive = false → i.auto_restart = true →
      mapGet d.config.servers n = none →
      mapGet (d.check_instances env).1.servers n = none ∧
      ∀ cfg2, Effect.spawned n cfg2 ∉ (d.check_instances env).2) ∧
    (∀ n i, (n, i) ∈ d.servers → (i.is_alive = true ∨ i.auto_restart = false) →
      (n, i) ∈ (d.check_instances env).1.servers) := by
  refine ⟨rfl, ?_, ?_, ?_, ?_⟩
  · intro n i cfg hmem hal har hcfg
    have hact : (n, i).2.is_alive = false ∧ (n, i).2.auto_restart = true := ⟨hal, har⟩
    have hsp := checkEntry_spawn d.config.servers env (n, i) cfg hact hcfg
    constructor
    · refine List.mem_flatten.mpr ⟨(checkEntry d.config.servers env (n, i)).2,
        List.mem_map_of_mem _ hmem, ?_⟩
      rw [hsp.1]
      exact List.mem_singleton.mpr rfl
    · obtain ⟨j, hj⟩ := hsp.2
      exact ⟨j, List.mem_filterMap.mpr ⟨(n, i), hmem, hj⟩⟩
  · exact fun n cfg hmem => checkInstances_spawned_inv d env n cfg hmem
  · intro n i hmem hal har hc
    constructor
    · rw [mapGet_eq_none_iff]
      intro q hq hkey
      obtain ⟨p, hp, hfp⟩ := List.mem_filterMap.mp hq
      have hkp : q.1 = p.1 := checkEntry_key d.config.servers env p q hfp
      have hpn : p = (n, i) :=
        nodup_key_eq d.servers hnd n i hmem p hp (by rw [← hkp, hkey])
      rw [hpn] at hfp
      rw [checkEntry_drop d.config.servers env (n, i) ⟨hal, har⟩ hc] at hfp
      cases hfp
    · intro cfg2 hin
      obtain ⟨i2, _, _, _, hsome⟩ := checkInstances_spawned_inv d env n cfg2 hin
      rw [hc] at hsome
      cases hsome
  · intro n i hmem hcond
    have hact : ¬ ((n, i).2.is_alive = false ∧ (n, i).2.auto_restart = true) := by
      rintro ⟨h1, h2⟩
      rcases hcond with hc | hc
      · rw [hc] at h1
        cases h1
      · rw [hc] at h2
        cases h2
    refine List.mem_filterMap.mpr ⟨(n, i), hmem, ?_⟩
    rw [checkEntry_not_action d.config.servers env (n, i) hact]

/-- C6, witness at a concrete input: in `d1`, the dead auto-restart
instance `web` (still configured) gets a spawn attempt and stays
registered; the dead auto-restart instance `gone` (configuration
vanished) is deregistered; the live instance `db` is untouched. -/
theorem C6_health_check_exact_witness :
    Effect.spawned "web" cexConfig ∈ (Daemon.check_instances d1 env0).2 ∧
    mapGet (Daemon.check_instances d1 env0).1.servers "gone" = none ∧
    ("db", cexServer) ∈ (Daemon.check_instances d1 env0).1.servers := by
  have h := C6_health_check_exact d1 env0 (by decide)
  exact ⟨(h.2.1 "web" deadAutoServer cexConfig (by decide) (by decide) (by decide)
            (by decide)).1,
         (h.2.2.2.1 "gone" deadAutoServer (by decide) (by decide) (by decide)
            (by decide)).1,
         h.2.2.2.2 "db" cexServer (by decide) (Or.inl (by decide))⟩

/-- The `start` handler never produces the kill-daemon unwind signal. -/
theorem start_server_not_killed (d : Daemon) (env : DaemonEnv) (args : List String) :
    (Daemon.start_server d env args).res ≠ Except.error ClientError.Killed := by
  unfold Daemon.start_server
  repeat' split
  all_goals simp

/-- The `stop` handler never produces the kill-daemon unwind signal. -/
theorem stop_server_not_killed (d : Daemon) (env : DaemonEnv) (args : List String) :
    (Daemon.stop_server d env args).res ≠ Except.error ClientError.Killed := by
  unfold Daemon.stop_server
  repeat' split
  all_goals simp

/-- The `restart` handler never produces the kill-daemon unwind signal. -/
theorem restart_server_not_killed (d : Daemon) (env : DaemonEnv) (args : List String) :
    (Daemon.restart_server d env args).res ≠ Except.error ClientError.Killed := by
  unfold Daemon.restart_server
  repeat' split
  all_goals try simp
  all_goals repeat' split
  all_goals simp

/-- The `status` handler never produces the kill-daemon unwind signal. -/
theorem server_status_not_killed (d : Daemon) (env : DaemonEnv) (args : List String) :
    (Daemon.server_status d env args).res ≠ Except.error ClientError.Killed := by
  unfold Daemon.server_status
  repeat' split
  all_goals simp

/-- The `tail` handler never produces the kill-daemon unwind signal. -/
theorem server_tail_not_killed (d : Daemon) (env : DaemonEnv) (args : List String) :
    (Daemon.server_tail d env args).res ≠ Except.error ClientError.Killed := by
  unfold Daemon.server_tail
  repeat' split
  all_goals simp

/-- The `send` handler never produces the kill-daemon unwind signal. -/
theorem server_send_not_killed (d : Daemon) (env : DaemonEnv) (args : List String) :
    (Daemon.server_send d env args).res ≠ Except.error ClientError.Killed := by
  unfold Daemon.server_send
  repeat' split
  all_goals try simp
  all_goals repeat' split
  all_goals simp

/-- The per-instance status loop never produces the kill-daemon unwind
signal. -/
theorem listInstancesGo_not_killed (env : DaemonEnv) (l : List (String × Server)) (acc : List Out) :
    (listInstancesGo env l acc).2 ≠ Except.error ClientError.Killed := by
  induction l generalizing acc with
  | nil => simp [listInstancesGo]
  | cons p rest ih =>
    rcases p with ⟨n, i⟩
    unfold listInstancesGo
    by_cases hi : i.alive
    · simp only [hi, if_true]
      cases h : env.statusInfo n with
      | ok info =>
        simp only [h]
        exact ih _
      | error e =>
        simp only [h]
        simp
    · rw [if_neg hi]
      exact ih _

/-- The `instances` handler never produces the kill-daemon unwind
signal. -/
theorem list_instances_not_killed (d : Daemon) (env : DaemonEnv) :
    (Daemon.list_instances d env).res ≠ Except.error ClientError.Killed := by
  unfold Daemon.list_instances
  exact listInstancesGo_not_killed env d.servers _

/-- The `reload-config` handler never produces the kill-daemon unwind
signal. -/
theorem reload_config_not_killed (d : Daemon) (env : DaemonEnv) :
    (Daemon.reload_config d env).res ≠ Except.error ClientError.Killed := by
  unfold Daemon.reload_config
  repeat' split
  all_goals simp

/-- C7: `kill-daemon` attempts a stop of every instance registered at
dispatch time (draining the registry), reaches its response and the
`Killed` unwind signal regardless of how those stops turn out (stop
failures are not propagated), ends its response with the shutdown text
followed by the fixed 64-byte all-zero sentinel, and is the only
command word whose dispatch yields the `Killed` signal that ends the
daemon's control loop. -/
theorem C7_kill_daemon_shutdown (d : Daemon) (env : DaemonEnv) :
    ((d.kill_daemon env).effs = d.servers.map (fun p => Effect.stopAttempt p.1)) ∧
    ((d.kill_daemon env).d.servers = []) ∧
    ((d.kill_daemon env).res = .error .Killed) ∧
    ((d.kill_daemon env).out =
      (.text "Killing servers..."
        :: (d.servers.map (fun p => (Shepherd.stop_server p.1 p.2 env).1)).flatten)
      ++ [Out.text killText, Out.zeros 64]) ∧
    (∀ args, (d.match_op env args).res = .error .Killed ↔ args.head? = some "kill-daemon") := by
  refine ⟨rfl, rfl, rfl, by simp [Daemon.kill_daemon], ?_⟩
  intro args
  rcases args with _ | ⟨op, rest⟩
  · simp [Daemon.match_op]
  · simp only [Daemon.match_op, List.head?]
    split
    · exact iff_of_false (start_server_not_killed d env rest) (by simp_all)
    · exact iff_of_false (stop_server_not_killed d env rest) (by simp_all)
    · exact iff_of_false (restart_server_not_killed d env rest) (by simp_all)
    · exact iff_of_false (server_status_not_killed d env rest) (by simp_all)
    · exact iff_of_false (server_tail_not_killed d env rest) (by simp_all)
    · exact iff_of_false (server_send_not_killed d env rest) (by simp_all)
    · exact iff_of_false (by simp [Daemon.list_servers]) (by simp_all)
    · exact iff_of_false (list_instances_not_killed d env) (by simp_all)
    · exact iff_of_false (reload_config_not_killed d env) (by simp_all)
    · exact iff_of_true rfl (by simp_all)
    · exact iff_of_false (by simp) (by simp_all)
    · exact iff_of_false (by simp) (by simp_all)

/-- C7, witness at a concrete input: killing the daemon `d0` under
`env0` (whose stops fail) still reaches the `Killed` signal and the
sentinel, and a `tail` dispatch does not end the loop. -/
theorem C7_kill_daemon_shutdown_witness :
    (Daemon.kill_daemon d0 env0).res = .error .Killed ∧
    (Daemon.kill_daemon d0 env0).effs = [Effect.stopAttempt "web"] ∧
    ((Daemon.match_op d0 env0 ["kill-daemon"]).res = .error .Killed ↔
      (["kill-daemon"] : List String).head? = some "kill-daemon") ∧
    ((Daemon.match_op d0 env0 ["tail", "web"]).res = .error .Killed ↔
      (["tail", "web"] : List String).head? = some "kill-daemon") := by
  have h := C7_kill_daemon_shutdown d0 env0
  exact ⟨h.2.2.1, by rw [h.1]; rfl, h.2.2.2.2 ["kill-daemon"], h.2.2.2.2 ["tail", "web"]⟩

/-- C10: a `tail` command whose line-count argument is present but does
not parse as a non-negative integer behaves exactly as if no count had
been given (the default of 20 lines), with no argument error reported. -/
theorem C10_tail_bad_count_default (d : Daemon) (env : DaemonEnv) (name badCount : String)
    (rest : List String) (h : parseUsize? badCount = none) :
    d.server_tail env (name :: badCount :: rest) = d.server_tail env [name] := by
  simp [Daemon.server_tail, h]

/-- C10, witness at a concrete input. -/
theorem C10_tail_bad_count_default_witness :
    parseUsize? "abc" = none ∧
    Daemon.server_tail d0 env0 ["web", "abc"] = Daemon.server_tail d0 env0 ["web"] :=
  ⟨by decide, C10_tail_bad_count_default d0 env0 "web" "abc" [] (by decide)⟩

/-- C2: dispatching `stop`, `status`, `tail` or `send` with a service
name not present in the registry writes exactly the
no-running-instance response, performs no process-level effect, and
leaves the daemon state (configuration and every registry entry)
unchanged. -/
theorem C2_absent_name_frame (d : Daemon) (env : DaemonEnv) (name : String)
    (rest : List String) (h : mapGet d.servers name = none) :
    d.stop_server env (name :: rest) =
      ⟨d, [.text ("No running instance of \"" ++ name ++ "\"")], [], .ok ()⟩ ∧
    d.server_status env (name :: rest) =
      ⟨d, [.text ("No running instance of \"" ++ name ++ "\"")], [], .ok ()⟩ ∧
    d.server_tail env (name :: rest) =
      ⟨d, [.text ("No running instance of \"" ++ name ++ "\"")], [], .ok ()⟩ ∧
    d.server_send env (name :: rest) =
      ⟨d, [.text ("No running instance of \"" ++ name ++ "\"")], [], .ok ()⟩ := by
  refine ⟨?_, ?_, ?_, ?_⟩ <;>
    simp [Daemon.stop_server, Daemon.server_status, Daemon.server_tail, Daemon.server_send, h]

/-- C2, witness at a concrete input: `db` is not registered in `d0`. -/
theorem C2_absent_name_frame_witness :
    mapGet d0.servers "db" = none ∧
    Daemon.stop_server d0 env0 ["db"] =
      ⟨d0, [.text ("No running instance of \"" ++ "db" ++ "\"")], [], .ok ()⟩ :=
  ⟨by decide, (C2_absent_name_frame d0 env0 "db" [] (by decide)).1⟩

/-- C3: dispatching `start` for a name already present in the registry
spawns nothing (no effects), leaves the daemon state unchanged, and
writes exactly the already-running response. -/
theorem C3_start_already_running (d : Daemon) (env : DaemonEnv) (name : String)
    (rest : List String) (inst : Server) (h : mapGet d.servers name = some inst) :
    d.start_server env (name :: rest) =
      ⟨d, [.text ("Server \"" ++ name ++ "\" already running!")], [], .ok ()⟩ := by
  simp [Daemon.start_server, h]

/-- C3, witness at a concrete input: `web` is registered in `d0`. -/
theorem C3_start_already_running_witness :
    mapGet d0.servers "web" = some cexServer ∧
    Daemon.start_server d0 env0 ["web"] =
      ⟨d0, [.text ("Server \"" ++ "web" ++ "\" already running!")], [], .ok ()⟩ :=
  ⟨by decide, C3_start_already_running d0 env0 "web" [] cexServer (by decide)⟩

/-- C5: when `reload-config` fails to load the external configuration,
the daemon state (configuration and registry) is exactly as before;
when it succeeds, the configuration is replaced by the loaded one, the
registry is untouched, and no process-level effect occurs. -/
theorem C5_reload_config_frame (d : Daemon) (env : DaemonEnv) :
    (∀ e, env.loadResult = .error e →
      d.reload_config env =
        ⟨d, [.text "Reloading config. Will not affect existing server instances.",
             .text ("Failed to load config: " ++ ioErrText e)], [], .ok ()⟩) ∧
    (∀ c, env.loadResult = .ok c →
      (d.reload_config env).d.config = c ∧
      (d.reload_config env).d.servers = d.servers ∧
      (d.reload_config env).effs = [] ∧
      (d.reload_config env).res = .ok ()) := by
  constructor
  · intro e he
    simp [Daemon.reload_config, he]
  · intro c hc
    simp [Daemon.reload_config, hc]

/-- C5, witness at concrete inputs: a failing load leaves `d0` intact,
a succeeding load replaces only the configuration. -/
theorem C5_reload_config_frame_witness :
    Daemon.reload_config d0 env0 =
      ⟨d0, [.text "Reloading config. Will not affect existing server instances.",
            .text ("Failed to load config: " ++ ioErrText ⟨7⟩)], [], .ok ()⟩ ∧
    (Daemon.reload_config d0 envOk).d.config = ⟨"/tmp/other.sock", [], []⟩ ∧
    (Daemon.reload_config d0 envOk).d.servers = d0.servers :=
  ⟨(C5_reload_config_frame d0 env0).1 ⟨7⟩ rfl,
   ((C5_reload_config_frame d0 envOk).2 ⟨"/tmp/other.sock", [], []⟩ rfl).1,
   ((C5_reload_config_frame d0 envOk).2 ⟨"/tmp/other.sock", [], []⟩ rfl).2.1⟩

end Shepherd
